import Mathlib

/-!
Verification of the `time_duration_api` library (`src/lib.rs`, module
`time_utils`) against its natural-language specification.

Shallow embedding conventions:
* Rust `std::time::Duration` is a pair of a `u64` second count and a `u32`
  nanosecond count below `10^9`; machine integers are modelled as `Nat` with
  explicit bounds (`U64_LIMIT`) where overflow matters.
* Rust operations that can panic (`Duration` `+`, `-`, `*`, `/` on overflow,
  underflow or division by zero) are modelled as `Option`-valued functions;
  `none` marks the panic (an uncatchable process fault), `some` the value.
* `SystemTime` is modelled as a signed count of nanoseconds since the Unix
  epoch (`Int`), which may be negative (a pre-epoch instant);
  `duration_since UNIX_EPOCH` fails exactly on negative values.
* Calls into the external `chrono` library (calendar conversion, fixed-offset
  parsing, strftime formatting/parsing) are not code of this crate; they are
  taken as function parameters of the embedded operations, so theorems
  quantify over their behaviour and hypotheses pin down the documented facts
  a claim needs.
-/

namespace TimeUtils

/-- Nanoseconds per second, as in Rust `std::time`. -/
def NANOS_PER_SEC : Nat := 1000000000

/-- One past the largest `u64` value, i.e. `2^64`. -/
def U64_LIMIT : Nat := 18446744073709551616

/-- One past the largest `i64` value that is non-negative, i.e. `2^63`. -/
def I64_HALF : Nat := 9223372036854775808

/-- Rust `std::time::Duration`: `secs : u64` and `nanos : u32` with
`nanos < NANOS_PER_SEC`.  The representation invariant is tracked by
`Duration.wf` rather than bundled, mirroring the Rust type's unchecked
field layout. -/
structure Duration where
  secs : Nat
  nanos : Nat
deriving DecidableEq, Repr

/-- Representation invariant of `std::time::Duration`: the second count fits
in a `u64` and the nanosecond part is a sub-second count. -/
def Duration.wf (d : Duration) : Prop :=
  d.secs < U64_LIMIT ∧ d.nanos < NANOS_PER_SEC

instance (d : Duration) : Decidable d.wf := by
  unfold Duration.wf; infer_instance

/-- `Duration::from_secs`. -/
def Duration.from_secs (secs : Nat) : Duration := ⟨secs, 0⟩

/-- `Duration::from_millis`: `secs = millis / 1000`,
`nanos = (millis % 1000) * 10^6`. -/
def Duration.from_millis (millis : Nat) : Duration :=
  ⟨millis / 1000, millis % 1000 * 1000000⟩

/-- `Duration::from_micros`: `secs = micros / 10^6`,
`nanos = (micros % 10^6) * 10^3`. -/
def Duration.from_micros (micros : Nat) : Duration :=
  ⟨micros / 1000000, micros % 1000000 * 1000⟩

/-- `Duration::from_nanos`: `secs = nanos / 10^9`, `nanos = nanos % 10^9`. -/
def Duration.from_nanos (nanos : Nat) : Duration :=
  ⟨nanos / NANOS_PER_SEC, nanos % NANOS_PER_SEC⟩

/-- `Duration::as_secs`. -/
def Duration.as_secs (d : Duration) : Nat := d.secs

/-- `Duration::as_millis` (a `u128`; the product never overflows 128 bits). -/
def Duration.as_millis (d : Duration) : Nat :=
  d.secs * 1000 + d.nanos / 1000000

/-- `Duration::as_micros`. -/
def Duration.as_micros (d : Duration) : Nat :=
  d.secs * 1000000 + d.nanos / 1000

/-- `Duration::as_nanos`. -/
def Duration.as_nanos (d : Duration) : Nat :=
  d.secs * NANOS_PER_SEC + d.nanos

/-- `Duration::checked_add`: add second counts (checked in `u64`), add the
nanosecond parts and carry at `NANOS_PER_SEC`.  `none` is the overflow case,
on which the `Add` impl used by the crate panics. -/
def Duration.checked_add (a b : Duration) : Option Duration :=
  if a.secs + b.secs < U64_LIMIT then
    if a.nanos + b.nanos ≥ NANOS_PER_SEC then
      if a.secs + b.secs + 1 < U64_LIMIT then
        some ⟨a.secs + b.secs + 1, a.nanos + b.nanos - NANOS_PER_SEC⟩
      else none
    else some ⟨a.secs + b.secs, a.nanos + b.nanos⟩
  else none

/-- `Duration::checked_sub`: subtract second counts (checked in `u64`),
borrowing one second into the nanosecond part when needed.  `none` is the
underflow case, on which the `Sub` impl used by the crate panics with
"overflow when subtracting durations". -/
def Duration.checked_sub (a b : Duration) : Option Duration :=
  if b.secs ≤ a.secs then
    if b.nanos ≤ a.nanos then
      some ⟨a.secs - b.secs, a.nanos - b.nanos⟩
    else if 1 ≤ a.secs - b.secs then
      some ⟨a.secs - b.secs - 1, a.nanos + NANOS_PER_SEC - b.nanos⟩
    else none
  else none

/-- `Duration::checked_mul` by a `u32` scalar: multiply the nanosecond part,
split off whole seconds, and multiply-then-add the second count with `u64`
overflow checks.  `none` is the overflow case, on which the `Mul` impl used
by the crate panics. -/
def Duration.checked_mul (a : Duration) (rhs : Nat) : Option Duration :=
  if a.secs * rhs < U64_LIMIT then
    if a.secs * rhs + a.nanos * rhs / NANOS_PER_SEC < U64_LIMIT then
      some ⟨a.secs * rhs + a.nanos * rhs / NANOS_PER_SEC,
            a.nanos * rhs % NANOS_PER_SEC⟩
    else none
  else none

/-- `Duration::checked_div` by a `u32`: `none` exactly when the divisor is
zero, on which the `Div` impl used by the crate panics with "divide by zero
error when dividing duration by scalar".  Otherwise divide the second count,
and fold the remainder seconds into the nanosecond division. -/
def Duration.checked_div (a : Duration) (rhs : Nat) : Option Duration :=
  if rhs = 0 then none
  else
    some ⟨a.secs / rhs,
          a.nanos / rhs + (a.secs % rhs * NANOS_PER_SEC + a.nanos % rhs) / rhs⟩

/-- `CustomDuration` (the crate's `Span`): a newtype over `Duration`. -/
structure CustomDuration where
  duration : Duration
deriving DecidableEq, Repr

namespace CustomDuration

/-- `CustomDuration::from_secs`. -/
def from_secs (secs : Nat) : CustomDuration := ⟨Duration.from_secs secs⟩

/-- `CustomDuration::from_millis`. -/
def from_millis (millis : Nat) : CustomDuration := ⟨Duration.from_millis millis⟩

/-- `CustomDuration::from_micros`. -/
def from_micros (micros : Nat) : CustomDuration := ⟨Duration.from_micros micros⟩

/-- `CustomDuration::from_nanos`. -/
def from_nanos (nanos : Nat) : CustomDuration := ⟨Duration.from_nanos nanos⟩

/-- `CustomDuration::add` (and the `Add` impl): `self.duration + other.duration`,
which panics (`none`) on `u64` overflow. -/
def add (a b : CustomDuration) : Option CustomDuration :=
  (a.duration.checked_add b.duration).map CustomDuration.mk

/-- `CustomDuration::sub` (and the `Sub` impl): `self.duration - other.duration`,
which panics (`none`) when the subtrahend exceeds the minuend. -/
def sub (a b : CustomDuration) : Option CustomDuration :=
  (a.duration.checked_sub b.duration).map CustomDuration.mk

/-- `CustomDuration::mul` (and the `Mul<u32>` impl): `self.duration * scalar`,
which panics (`none`) on `u64` overflow. -/
def mul (a : CustomDuration) (scalar : Nat) : Option CustomDuration :=
  (a.duration.checked_mul scalar).map CustomDuration.mk

/-- `CustomDuration::div` (and the `Div<u32>` impl): `self.duration / divisor`,
which panics (`none`) exactly when `divisor = 0`. -/
def div (a : CustomDuration) (divisor : Nat) : Option CustomDuration :=
  (a.duration.checked_div divisor).map CustomDuration.mk

/-- `CustomDuration::round_secs`: `Duration::from_secs(self.duration.as_secs())`,
truncating the sub-second part. -/
def round_secs (a : CustomDuration) : CustomDuration :=
  ⟨Duration.from_secs a.duration.as_secs⟩

/-- `CustomDuration::as_secs`. -/
def as_secs (a : CustomDuration) : Nat := a.duration.as_secs

/-- `CustomDuration::as_millis`. -/
def as_millis (a : CustomDuration) : Nat := a.duration.as_millis

/-- `CustomDuration::as_micros`. -/
def as_micros (a : CustomDuration) : Nat := a.duration.as_micros

/-- `CustomDuration::as_nanos`. -/
def as_nanos (a : CustomDuration) : Nat := a.duration.as_nanos

/-- Well-formedness of the wrapped `Duration`. -/
def wf (a : CustomDuration) : Prop := a.duration.wf

instance (a : CustomDuration) : Decidable a.wf := by
  unfold wf; infer_instance

end CustomDuration

/-- The crate's error enum `TimeError`.  Note it has no division-by-zero or
underflow variant at all. -/
inductive TimeError where
  | InvalidTime
  | InvalidTimeFormat (msg : String)
  | InvalidTimezoneFormat (msg : String)
  | ParseError (msg : String)
deriving DecidableEq, Repr

/-- `std::time::SystemTime`, modelled as a signed count of nanoseconds since
the Unix epoch; negative values are pre-epoch instants (reachable through
`sub_duration`). -/
abbrev SysTime := Int

/-- `SystemTime::duration_since(UNIX_EPOCH)`: succeeds exactly when the
instant is at or after the epoch, returning the elapsed `Duration`. -/
def SysTime.duration_since_epoch (t : SysTime) : Option Duration :=
  if 0 ≤ t then some ⟨t.toNat / NANOS_PER_SEC, t.toNat % NANOS_PER_SEC⟩
  else none

/-- The `as i64` cast of a `u64` second count (two's complement wrap). -/
def u64_to_i64 (n : Nat) : Int :=
  if n < I64_HALF then (n : Int) else (n : Int) - (U64_LIMIT : Int)

/-- `SystemTime + Duration` (used by `Time::add_duration`).  On the platforms
this crate targets the representable range is the full `i64` seconds range;
the model keeps the arithmetic exact on `Int`. -/
def SysTime.add_dur (t : SysTime) (d : Duration) : SysTime :=
  t + (d.as_nanos : Int)

/-- `SystemTime - Duration` (used by `Time::sub_duration`); may move the
instant before the epoch. -/
def SysTime.sub_dur (t : SysTime) (d : Duration) : SysTime :=
  t - (d.as_nanos : Int)

/-- The crate's `Time` struct: a `SystemTime` plus a cached UTC calendar
datetime.  `DT` stands for chrono's `DateTime<Utc>`, whose internals this
crate never inspects, so it stays a type parameter. -/
structure Time (DT : Type) where
  timestamp : SysTime
  cached_utc_datetime : Option DT
deriving Repr

namespace Time

variable {DT : Type}

/-- `Time::timestamp`: whole seconds since the epoch via
`duration_since(UNIX_EPOCH)`, or `InvalidTime` for a pre-epoch instant.
(Named `timestampSecs` because `timestamp` is the field name.) -/
def timestampSecs (t : Time DT) : Except TimeError Nat :=
  match t.timestamp.duration_since_epoch with
  | some d => Except.ok d.as_secs
  | none => Except.error TimeError.InvalidTime

/-- `Time::add_duration`: a new `Time` advanced by the span, cache omitted. -/
def add_duration (t : Time DT) (d : CustomDuration) : Time DT :=
  ⟨t.timestamp.add_dur d.duration, none⟩

/-- `Time::sub_duration`: a new `Time` moved backward by the span, cache
omitted. -/
def sub_duration (t : Time DT) (d : CustomDuration) : Time DT :=
  ⟨t.timestamp.sub_dur d.duration, none⟩

/-- `Time::get_utc_datetime`: return the cached datetime if present;
otherwise compute it from the timestamp via `duration_since(UNIX_EPOCH)` and
chrono's `NaiveDateTime::from_timestamp_opt` (the parameter
`fromTimestampOpt`, taking the `as i64` seconds and the subsecond nanos),
failing with `InvalidTime` on either step, and cache it.  Returns the result
together with the updated `self` (the Rust method mutates through
`&mut self`). -/
def get_utc_datetime (fromTimestampOpt : Int → Nat → Option DT)
    (t : Time DT) : Except TimeError DT × Time DT :=
  match t.cached_utc_datetime with
  | some cached => (Except.ok cached, t)
  | none =>
    match t.timestamp.duration_since_epoch with
    | none => (Except.error TimeError.InvalidTime, t)
    | some dur =>
      match fromTimestampOpt (u64_to_i64 dur.as_secs) dur.nanos with
      | none => (Except.error TimeError.InvalidTime, t)
      | some dt => (Except.ok dt, ⟨t.timestamp, some dt⟩)

/-- `Time::format`: render the (cached or computed) UTC datetime with the
format string; `formatUtc` stands for chrono's `DateTime::format`. -/
def format (fromTimestampOpt : Int → Nat → Option DT)
    (formatUtc : DT → String → String)
    (t : Time DT) (fmt : String) : Except TimeError String × Time DT :=
  match get_utc_datetime fromTimestampOpt t with
  | (Except.error e, t') => (Except.error e, t')
  | (Except.ok dt, t') => (Except.ok (formatUtc dt fmt), t')

/-- `Time::format_with_timezone`: obtain the UTC datetime, then parse the
timezone string as a chrono `FixedOffset` (the parameter
`parseFixedOffset`), failing with `InvalidTimezoneFormat` carrying the
timezone string; on success render via `formatInTz` (chrono's
`with_timezone` + `format`).  `Off` stands for `FixedOffset`. -/
def format_with_timezone {Off : Type}
    (fromTimestampOpt : Int → Nat → Option DT)
    (parseFixedOffset : String → Option Off)
    (formatInTz : DT → Off → String → String)
    (t : Time DT) (fmt timezone : String) : Except TimeError String × Time DT :=
  match get_utc_datetime fromTimestampOpt t with
  | (Except.error e, t') => (Except.error e, t')
  | (Except.ok dt, t') =>
    match parseFixedOffset timezone with
    | none => (Except.error (TimeError.InvalidTimezoneFormat timezone), t')
    | some tz => (Except.ok (formatInTz dt tz fmt), t')

/-- `Time::to_timezone`: like `format_with_timezone` but renders with the
default `to_string` of the offset datetime (`displayInTz`). -/
def to_timezone {Off : Type}
    (fromTimestampOpt : Int → Nat → Option DT)
    (parseFixedOffset : String → Option Off)
    (displayInTz : DT → Off → String)
    (t : Time DT) (timezone : String) : Except TimeError String × Time DT :=
  match get_utc_datetime fromTimestampOpt t with
  | (Except.error e, t') => (Except.error e, t')
  | (Except.ok dt, t') =>
    match parseFixedOffset timezone with
    | none => (Except.error (TimeError.InvalidTimezoneFormat timezone), t')
    | some tz => (Except.ok (displayInTz dt tz), t')

/-- `Time::from_str(time_str, format)`: chrono's
`DateTime::parse_from_str` (the parameter `parseFromStr`, returning either a
parsed `DateTime<FixedOffset>` — type `CDT` — or its error's display
string), wrapped into a `Time` via `SystemTime::from` (`systemTimeFrom`);
a parse failure becomes `InvalidTimeFormat` carrying the input, the format
and the underlying diagnostic. -/
def from_str {CDT : Type}
    (parseFromStr : String → String → Except String CDT)
    (systemTimeFrom : CDT → SysTime)
    (time_str format : String) : Except TimeError (Time DT) :=
  match parseFromStr time_str format with
  | Except.ok dt => Except.ok ⟨systemTimeFrom dt, none⟩
  | Except.error e =>
    Except.error (TimeError.InvalidTimeFormat
      ("Failed to parse '" ++ time_str ++ "' with format '" ++ format ++ "': " ++ e))

/-- The ordered with-offset format list of `impl FromStr for Time`. -/
def formats_with_tz : List String :=
  ["%Y-%m-%d %H:%M:%S%z",
   "%Y-%m-%dT%H:%M:%S%z",
   "%Y-%m-%d %H:%M:%S.%f%z",
   "%Y-%m-%dT%H:%M:%S.%f%z"]

/-- `impl FromStr for Time`: try each with-offset format in order and return
on the first success; then try RFC 3339 (`parseRfc3339`); then (dead code in
practice) retry the same with-offset list; otherwise fail with
`ParseError("Invalid time string: " ++ s)`. -/
def fromStrImpl {CDT : Type}
    (parseFromStr : String → String → Except String CDT)
    (parseRfc3339 : String → Except String CDT)
    (systemTimeFrom : CDT → SysTime)
    (s : String) : Except TimeError (Time DT) :=
  match formats_with_tz.findSome? (fun fmt => (parseFromStr s fmt).toOption) with
  | some dt => Except.ok ⟨systemTimeFrom dt, none⟩
  | none =>
    match (parseRfc3339 s).toOption with
    | some dt => Except.ok ⟨systemTimeFrom dt, none⟩
    | none =>
      match formats_with_tz.findSome? (fun fmt => (parseFromStr s fmt).toOption) with
      | some dt => Except.ok ⟨systemTimeFrom dt, none⟩
      | none => Except.error (TimeError.ParseError ("Invalid time string: " ++ s))

/-- Specification-side reading of the resilient parser contract (§4.1 of the
spec): attempt the with-offset formats in their listed order, then RFC 3339;
the first successful parse wins; if none match, fail with a `ParseError`
carrying the original string. -/
def fromStrOrderedSpec {CDT : Type}
    (parseFromStr : String → String → Except String CDT)
    (parseRfc3339 : String → Except String CDT)
    (systemTimeFrom : CDT → SysTime)
    (s : String) : Except TimeError (Time DT) :=
  match (formats_with_tz.findSome? (fun fmt => (parseFromStr s fmt).toOption)).orElse
      (fun _ => (parseRfc3339 s).toOption) with
  | some dt => Except.ok ⟨systemTimeFrom dt, none⟩
  | none => Except.error (TimeError.ParseError ("Invalid time string: " ++ s))

/-- The UTC calendar datetime derived from a stored timestamp: exactly what
`get_utc_datetime` computes when no cache is present. -/
def utcDatetimeOf (fromTimestampOpt : Int → Nat → Option DT)
    (ts : SysTime) : Option DT :=
  match ts.duration_since_epoch with
  | none => none
  | some dur => fromTimestampOpt (u64_to_i64 dur.as_secs) dur.nanos

/-- Cache consistency: whenever the cache is present it equals the UTC
datetime derived from the stored timestamp. -/
def cacheConsistent (fromTimestampOpt : Int → Nat → Option DT)
    (t : Time DT) : Prop :=
  ∀ dt, t.cached_utc_datetime = some dt →
    utcDatetimeOf fromTimestampOpt t.timestamp = some dt

/-- `Time` values reachable through the crate's public operations:
construction (`now`, `from_str`, `FromStr` — all with an omitted cache),
duration arithmetic, and any operation that fills the cache through
`get_utc_datetime` (`format`, `format_with_timezone`, `to_timezone`). -/
inductive Reachable (fromTimestampOpt : Int → Nat → Option DT) : Time DT → Prop where
  | fresh (ts : SysTime) : Reachable fromTimestampOpt ⟨ts, none⟩
  | add_dur (t : Time DT) (d : CustomDuration) :
      Reachable fromTimestampOpt t → Reachable fromTimestampOpt (t.add_duration d)
  | sub_dur (t : Time DT) (d : CustomDuration) :
      Reachable fromTimestampOpt t → Reachable fromTimestampOpt (t.sub_duration d)
  | touch (t : Time DT) :
      Reachable fromTimestampOpt t →
      Reachable fromTimestampOpt (get_utc_datetime fromTimestampOpt t).2

end Time

/- ### Helper lemmas -/

/-- A successful `checked_add` is exact on total nanoseconds. -/
theorem Duration.checked_add_as_nanos {a b d : Duration}
    (h : a.checked_add b = some d) :
    d.as_nanos = a.as_nanos + b.as_nanos := by
  unfold Duration.checked_add at h
  simp only [NANOS_PER_SEC, U64_LIMIT] at h
  split at h
  · split at h
    · split at h
      · cases h
        simp only [Duration.as_nanos, NANOS_PER_SEC]
        omega
      · cases h
    · cases h
      simp only [Duration.as_nanos, NANOS_PER_SEC]
      omega
  · cases h

/-- A successful `checked_mul` is exact on total nanoseconds. -/
theorem Duration.checked_mul_as_nanos {a : Duration} {r : Nat} {d : Duration}
    (h : a.checked_mul r = some d) :
    d.as_nanos = a.as_nanos * r := by
  unfold Duration.checked_mul at h
  simp only [NANOS_PER_SEC, U64_LIMIT] at h
  split at h
  · split at h
    · cases h
      simp only [Duration.as_nanos, NANOS_PER_SEC]
      rw [Nat.add_mul, Nat.add_mul]
      have h1 : a.secs * r * 1000000000 = a.secs * 1000000000 * r := by ring
      rw [h1]
      omega
    · cases h
  · cases h

/-- `get_utc_datetime` preserves cache consistency: it either leaves the
value untouched or fills the cache with exactly the datetime derived from
the (unchanged) timestamp. -/
theorem Time.get_utc_datetime_preserves_consistent {DT : Type}
    (fro : Int → Nat → Option DT) (t : Time DT)
    (ht : Time.cacheConsistent fro t) :
    Time.cacheConsistent fro (Time.get_utc_datetime fro t).2 := by
  cases hc : t.cached_utc_datetime with
  | some cached => simpa [Time.get_utc_datetime, hc] using ht
  | none =>
    cases hd : t.timestamp.duration_since_epoch with
    | none => simpa [Time.get_utc_datetime, hc, hd] using ht
    | some dur =>
      cases hf : fro (u64_to_i64 dur.as_secs) dur.nanos with
      | none => simpa [Time.get_utc_datetime, hc, hd, hf] using ht
      | some dt =>
        intro dt' h
        simp only [Time.get_utc_datetime, hc, hd, hf] at h ⊢
        simp at h
        subst h
        simp [Time.utcDatetimeOf, hd, hf]

/- ### Claim theorems -/

/-- C1: the spec requires `Span::from_secs(10).div(0)` to yield a
`DivisionByZero`-class error result, never a process-terminating fault.
The code delegates to `Duration`'s `Div`, which panics on a zero divisor
(`none` in this model), and the crate's `TimeError` enum has no
division-by-zero variant at all: the evaluation below shows the call
faults instead of returning an error result. -/
theorem div_by_zero_faults :
    (CustomDuration.from_secs 10).div 0 = none := rfl

/-- C2: the spec requires `a.sub(b)` with `b > a` to fail with an
arithmetic-underflow error and not panic.  The code delegates to
`Duration`'s `Sub`, which panics on underflow (`none` in this model):
evaluating `from_secs(1).sub(from_secs(2))` faults instead of returning an
error result.  (No negative-magnitude `Span` is ever produced — the
representation cannot express one — but the required error path does not
exist.) -/
theorem sub_underflow_faults :
    (CustomDuration.from_secs 1).sub (CustomDuration.from_secs 2) = none := rfl

/-- C3: `impl FromStr for Time` attempts the with-offset format list in its
listed order, then RFC 3339, returns the `Time` from the first successful
parse, and when no listed format matches returns a `ParseError` carrying the
original input string: for every behaviour of the chrono parsing functions
and every input, the implementation (including its redundant second pass
over the same pure parsers) coincides with the ordered first-match
specification `fromStrOrderedSpec`. -/
theorem fromStr_first_match_spec {DT CDT : Type}
    (parseFromStr : String → String → Except String CDT)
    (parseRfc3339 : String → Except String CDT)
    (systemTimeFrom : CDT → SysTime) (s : String) :
    @Time.fromStrImpl DT CDT parseFromStr parseRfc3339 systemTimeFrom s
      = @Time.fromStrOrderedSpec DT CDT parseFromStr parseRfc3339 systemTimeFrom s := by
  unfold Time.fromStrImpl Time.fromStrOrderedSpec
  cases h1 : Time.formats_with_tz.findSome? (fun fmt => (parseFromStr s fmt).toOption) with
  | some dt => simp [Option.orElse]
  | none =>
    cases h2 : (parseRfc3339 s).toOption with
    | some dt => simp [Option.orElse, h1, h2]
    | none => simp [Option.orElse, h1, h2]

/-- C4: `timestamp()` returns `Ok` with the whole seconds since the Unix
epoch for an instant at or after the epoch, fails with `InvalidTime` for an
instant before the epoch, and in particular fails with `InvalidTime` after
`sub_duration` has moved the instant before the epoch. -/
theorem timestamp_epoch_spec {DT : Type} (t : Time DT) :
    (0 ≤ t.timestamp →
      t.timestampSecs = Except.ok (t.timestamp.toNat / NANOS_PER_SEC))
    ∧ (t.timestamp < 0 →
      t.timestampSecs = Except.error TimeError.InvalidTime)
    ∧ ∀ d : CustomDuration, (t.sub_duration d).timestamp < 0 →
        (t.sub_duration d).timestampSecs = Except.error TimeError.InvalidTime := by
  refine ⟨fun h => ?_, fun h => ?_, fun d h => ?_⟩
  · simp [Time.timestampSecs, SysTime.duration_since_epoch, h, Duration.as_secs]
  · simp [Time.timestampSecs, SysTime.duration_since_epoch, not_le.mpr h]
  · simp [Time.timestampSecs, SysTime.duration_since_epoch, not_le.mpr h]

/-- C4 witness: at 5 000 000 000 ns past the epoch, `timestamp()` is
`Ok 5`; after subtracting a 10 s span the instant is pre-epoch and
`timestamp()` is `InvalidTime`. -/
theorem timestamp_epoch_spec_witness :
    (Time.timestampSecs (⟨(5000000000 : Int), none⟩ : Time Unit)
        = Except.ok ((5000000000 : Int).toNat / NANOS_PER_SEC))
    ∧ (Time.timestampSecs
          ((⟨(5000000000 : Int), none⟩ : Time Unit).sub_duration
            (CustomDuration.from_secs 10))
        = Except.error TimeError.InvalidTime) :=
  ⟨(timestamp_epoch_spec _).1 (by decide),
   (timestamp_epoch_spec _).2.2 _ (by decide)⟩

/-- C5: every `Time` reachable through the public operations is
cache-consistent (a present cache equals the UTC datetime derived from the
stored timestamp), and `add_duration`/`sub_duration` always return a `Time`
whose cache is omitted. -/
theorem cache_invariant {DT : Type} (fro : Int → Nat → Option DT) :
    (∀ t : Time DT, Time.Reachable fro t → Time.cacheConsistent fro t)
    ∧ ∀ (t : Time DT) (d : CustomDuration),
        (t.add_duration d).cached_utc_datetime = none
        ∧ (t.sub_duration d).cached_utc_datetime = none := by
  refine ⟨fun t h => ?_, fun t d => ⟨rfl, rfl⟩⟩
  induction h with
  | fresh ts => intro dt hd; simp at hd
  | add_dur t' d _ _ => intro dt hd; simp [Time.add_duration] at hd
  | sub_dur t' d _ _ => intro dt hd; simp [Time.sub_duration] at hd
  | touch t' _ ih => exact Time.get_utc_datetime_preserves_consistent fro t' ih

/-- C5 witness: after filling the cache through `get_utc_datetime` at the
epoch, the cache equals the derived datetime; a fresh instant moved by
`add_duration`/`sub_duration` has no cache. -/
theorem cache_invariant_witness :
    Time.cacheConsistent (fun _ _ => some ())
        (Time.get_utc_datetime (fun _ _ => some ())
          (⟨(0 : Int), none⟩ : Time Unit)).2
    ∧ ((⟨(0 : Int), none⟩ : Time Unit).add_duration
          (CustomDuration.from_secs 1)).cached_utc_datetime = none
    ∧ ((⟨(0 : Int), none⟩ : Time Unit).sub_duration
          (CustomDuration.from_secs 1)).cached_utc_datetime = none :=
  ⟨(cache_invariant (fun _ _ => some ())).1 _
      (Time.Reachable.touch _ (Time.Reachable.fresh 0)),
   ((cache_invariant (fun _ _ => some ())).2 _ (CustomDuration.from_secs 1)).1,
   ((cache_invariant (fun _ _ => some ())).2 _ (CustomDuration.from_secs 1)).2⟩

/-- C6: `add_duration` followed by `sub_duration` with the same span returns
to exactly the original epoch-seconds value: the `timestamp()` results agree
(both operations are exact integer arithmetic in this model, where the
platform `SystemTime` range covers all intermediate sums). -/
theorem add_sub_roundtrip {DT : Type} (t : Time DT) (d : CustomDuration) :
    ((t.add_duration d).sub_duration d).timestampSecs = t.timestampSecs := by
  have h : ((t.add_duration d).sub_duration d).timestamp = t.timestamp := by
    simp only [Time.add_duration, Time.sub_duration, SysTime.add_dur, SysTime.sub_dur]
    ring
  unfold Time.timestampSecs
  rw [h]

/-- C7: exactness of span arithmetic on total nanoseconds — whenever the sum
is representable, `a.add(b).as_nanos() = a.as_nanos() + b.as_nanos()`, and
whenever the doubling is representable, `a.mul(2).as_nanos() =
a.add(a).as_nanos()`. -/
theorem span_add_mul_nanos (a b : CustomDuration) :
    (∀ c, a.add b = some c → c.as_nanos = a.as_nanos + b.as_nanos)
    ∧ ∀ m m', a.mul 2 = some m → a.add a = some m' →
        m.as_nanos = m'.as_nanos := by
  constructor
  · intro c hc
    unfold CustomDuration.add at hc
    cases hd : a.duration.checked_add b.duration with
    | none => rw [hd] at hc; cases hc
    | some d =>
      rw [hd] at hc
      simp at hc
      subst hc
      simpa [CustomDuration.as_nanos] using Duration.checked_add_as_nanos hd
  · intro m m' hm hm'
    unfold CustomDuration.mul at hm
    unfold CustomDuration.add at hm'
    cases h1 : a.duration.checked_mul 2 with
    | none => rw [h1] at hm; cases hm
    | some dm =>
      cases h2 : a.duration.checked_add a.duration with
      | none => rw [h2] at hm'; cases hm'
      | some da =>
        rw [h1] at hm; rw [h2] at hm'
        simp at hm hm'
        subst hm; subst hm'
        have e1 := Duration.checked_mul_as_nanos h1
        have e2 := Duration.checked_add_as_nanos h2
        simp only [CustomDuration.as_nanos]
        omega

/-- C7 witness: with `a = b = Span::from_millis(1500)`, the sum is
`⟨3 s, 0 ns⟩` and is exact on nanoseconds, and `a.mul(2)` agrees with
`a.add(a)` on nanoseconds. -/
theorem span_add_mul_nanos_witness :
    ((CustomDuration.mk ⟨3, 0⟩).as_nanos
        = (CustomDuration.from_millis 1500).as_nanos
          + (CustomDuration.from_millis 1500).as_nanos)
    ∧ (CustomDuration.mk ⟨3, 0⟩).as_nanos = (CustomDuration.mk ⟨3, 0⟩).as_nanos :=
  ⟨(span_add_mul_nanos _ _).1 _ (by decide),
   (span_add_mul_nanos (CustomDuration.from_millis 1500)
      (CustomDuration.from_millis 1500)).2 _ _ (by decide) (by decide)⟩

/-- C8: `round_secs` truncates sub-second precision toward zero: the result
keeps the whole-second count and has zero sub-second nanoseconds, and in
particular `Span::from_millis(1500).round_secs().as_secs() = 1` (floor, not
round-to-nearest). -/
theorem round_secs_truncates :
    (∀ d : CustomDuration,
      d.round_secs.as_secs = d.as_secs ∧ d.round_secs.duration.nanos = 0)
    ∧ (CustomDuration.from_millis 1500).round_secs.as_secs = 1 :=
  ⟨fun _ => ⟨rfl, rfl⟩, by decide⟩

/-- C9 counterexample: the claim as stated quantifies over every instant,
but for a pre-epoch instant (reachable via `sub_duration`)
`format_with_timezone` fails with `InvalidTime` before the timezone string
is ever parsed, not with `InvalidTimezoneFormat` — shown here at the instant
one nanosecond before the epoch with the unparsable timezone "not-a-tz". -/
theorem tz_error_counterexample :
    (@Time.format_with_timezone Unit Unit
        (fun _ _ => some ()) (fun _ => none) (fun _ _ _ => "")
        ⟨(-1 : Int), none⟩ "%Y-%m-%d %H:%M:%S" "not-a-tz").1
      = Except.error TimeError.InvalidTime
    ∧ (@Time.format_with_timezone Unit Unit
        (fun _ _ => some ()) (fun _ => none) (fun _ _ _ => "")
        ⟨(-1 : Int), none⟩ "%Y-%m-%d %H:%M:%S" "not-a-tz").1
      ≠ Except.error (TimeError.InvalidTimezoneFormat "not-a-tz") :=
  ⟨rfl, fun hcon => TimeError.noConfusion (Except.error.inj hcon)⟩

/-- C9 (amended): provided the instant's UTC datetime is obtainable (the
instant is not pre-epoch and the calendar conversion succeeds), a timezone
string that does not parse as a fixed offset makes `format_with_timezone`
and `to_timezone` fail with `InvalidTimezoneFormat` carrying exactly that
string — no default or fallback offset is ever substituted. -/
theorem tz_error_amended {DT Off : Type}
    (fro : Int → Nat → Option DT)
    (pfo : String → Option Off)
    (fIn : DT → Off → String → String)
    (dIn : DT → Off → String)
    (t : Time DT) (fmt tz : String)
    (hok : ∃ dt, (Time.get_utc_datetime fro t).1 = Except.ok dt)
    (htz : pfo tz = none) :
    (Time.format_with_timezone fro pfo fIn t fmt tz).1
        = Except.error (TimeError.InvalidTimezoneFormat tz)
    ∧ (Time.to_timezone fro pfo dIn t tz).1
        = Except.error (TimeError.InvalidTimezoneFormat tz) := by
  obtain ⟨dt, hdt⟩ := hok
  rcases hg : Time.get_utc_datetime fro t with ⟨res, t'⟩
  rw [hg] at hdt
  have hres : res = Except.ok dt := hdt
  subst hres
  refine ⟨?_, ?_⟩ <;>
    simp [Time.format_with_timezone, Time.to_timezone, hg, htz]

/-- C9 amended witness: at the epoch, with a conversion that succeeds and a
fixed-offset parser that rejects "not-a-tz", both operations fail with
`InvalidTimezoneFormat "not-a-tz"`. -/
theorem tz_error_amended_witness :
    (@Time.format_with_timezone Unit Unit
        (fun _ _ => some ()) (fun _ => none) (fun _ _ _ => "")
        ⟨(0 : Int), none⟩ "%Y-%m-%d %H:%M:%S" "not-a-tz").1
      = Except.error (TimeError.InvalidTimezoneFormat "not-a-tz")
    ∧ (@Time.to_timezone Unit Unit
        (fun _ _ => some ()) (fun _ => none) (fun _ _ => "")
        ⟨(0 : Int), none⟩ "not-a-tz").1
      = Except.error (TimeError.InvalidTimezoneFormat "not-a-tz") :=
  tz_error_amended _ _ _ _ _ _ _ ⟨(), rfl⟩ rfl

/-- C10: for a format/input pairing on which the underlying
`DateTime::parse_from_str` always fails (chrono rejects every input under a
format with no UTC-offset specifier, since a `DateTime<FixedOffset>` needs
an explicit offset), `Time::from_str` returns an `InvalidTimeFormat` error
carrying the input, the format and the underlying diagnostic. -/
theorem from_str_no_offset_fails {DT CDT : Type}
    (parseFromStr : String → String → Except String CDT)
    (systemTimeFrom : CDT → SysTime)
    (format : String)
    (hno : ∀ s : String, ∃ e : String, parseFromStr s format = Except.error e)
    (input : String) :
    ∃ e : String, parseFromStr input format = Except.error e
      ∧ @Time.from_str DT CDT parseFromStr systemTimeFrom input format
          = Except.error (TimeError.InvalidTimeFormat
              ("Failed to parse '" ++ input ++ "' with format '"
                ++ format ++ "': " ++ e)) := by
  obtain ⟨e, he⟩ := hno input
  refine ⟨e, he, ?_⟩
  unfold Time.from_str
  rw [he]

/-- C10 witness: with a parser that (like chrono on an offset-free format)
rejects every input with a not-enough-information diagnostic, parsing
"2023-09-20 10:30:00" under "%Y-%m-%d %H:%M:%S" yields `InvalidTimeFormat`
with the composed message. -/
theorem from_str_no_offset_fails_witness :
    ∃ e : String,
      (fun (_ _ : String) =>
          (Except.error "input is not enough for unique date and time"
            : Except String Unit)) "2023-09-20 10:30:00" "%Y-%m-%d %H:%M:%S"
        = Except.error e
      ∧ @Time.from_str Unit Unit
            (fun (_ _ : String) =>
              (Except.error "input is not enough for unique date and time"
                : Except String Unit))
            (fun _ => (0 : Int)) "2023-09-20 10:30:00" "%Y-%m-%d %H:%M:%S"
          = Except.error (TimeError.InvalidTimeFormat
              ("Failed to parse '" ++ "2023-09-20 10:30:00"
                ++ "' with format '" ++ "%Y-%m-%d %H:%M:%S" ++ "': " ++ e)) :=
  from_str_no_offset_fails
    (fun (_ _ : String) =>
      (Except.error "input is not enough for unique date and time"
        : Except String Unit))
    (fun _ => (0 : Int)) "%Y-%m-%d %H:%M:%S"
    (fun _ => ⟨"input is not enough for unique date and time", rfl⟩)
    "2023-09-20 10:30:00"

end TimeUtils
